import Mathlib

/-!
Verification development for the McpWaf repository.

The definitions below are a shallow embedding of the Python source:
`src/meramodule/security/validator.py`, `src/meramodule/security/sandbox.py`
and `src/meramodule/ai/orchestrator.py`.  Pure functions are translated
directly; the standard-library helpers they call (`urllib.parse.urlparse`,
`ipaddress.ip_address`, `re.sub` with fixed character classes) are modelled
for the fragment the source exercises.  Stateful objects (process limiter,
rate monitor, the orchestrator loop) are modelled by explicit state passing;
external effects (subprocess launches, container runs, LLM calls) are
modelled as oracle functions passed in as parameters, together with an
explicit trace of the commands submitted for execution.
-/

namespace McpWaf

/-! ## Generic list/char helpers -/

/-- Substring test on character lists: does `hay` contain `needle` as a
contiguous run?  Models the Python membership test of needle in hay. -/
def containsSub (hay needle : List Char) : Bool :=
  needle.isPrefixOf hay ||
    match hay with
    | [] => false
    | _ :: t => containsSub t needle

/-- Lower-case a character list (models `str.lower` on ASCII data). -/
def lowerL (l : List Char) : List Char :=
  l.map Char.toLower

/-- Split a character list on a single separator character, keeping empty
segments (models Python `str.split(sep)` for a one-character separator). -/
def splitOnCharAux (sep : Char) : List Char → List Char → List (List Char)
  | [], acc => [acc.reverse]
  | c :: rest, acc =>
    if c = sep then acc.reverse :: splitOnCharAux sep rest []
    else splitOnCharAux sep rest (c :: acc)

def splitOnChar (sep : Char) (l : List Char) : List (List Char) :=
  splitOnCharAux sep l []

/-- Split at the first occurrence of `"::"`, if any. -/
def splitDoubleColon : List Char → Option (List Char × List Char)
  | [] => none
  | ':' :: ':' :: rest => some ([], rest)
  | c :: rest =>
    match splitDoubleColon rest with
    | some (pre, post) => some (c :: pre, post)
    | none => none

/-! ## Model of `urllib.parse.urlparse` (the fragment `validate_target` uses)

Only the `scheme`, `netloc` and `hostname` components are consumed by the
source, so only those are modelled.  The model follows the CPython urlsplit algorithm:
strip leading/trailing C0-control-or-space characters, remove every
tab/CR/LF, split off a scheme when the text before the first `:` is non-empty
and made of scheme characters, then read the netloc after `//` up to the
first `/`, `?` or `#`.  The `hostname` accessor drops userinfo (text up to
the last `@`), reads a bracketed IPv6 literal if one is present, strips the
port otherwise, lower-cases the result and yields `none` when it is empty. -/

def isSchemeChar (c : Char) : Bool :=
  c.isAlpha || c.isDigit || c = '+' || c = '-' || c = '.'

def isC0OrSpace (c : Char) : Bool :=
  c.val ≤ 32

def isTabCrLf (c : Char) : Bool :=
  c = Char.ofNat 9 || c = Char.ofNat 10 || c = Char.ofNat 13

structure ParsedUrl where
  scheme : String
  netloc : String
  hostname : Option String
deriving Repr, DecidableEq

def splitScheme (l : List Char) : String × List Char :=
  let pre := l.takeWhile (fun c => c ≠ ':')
  if pre.length < l.length ∧ 0 < pre.length ∧ pre.all isSchemeChar then
    (String.mk (lowerL pre), l.drop (pre.length + 1))
  else
    ("", l)

def netlocOf (rest : List Char) : List Char :=
  match rest with
  | '/' :: '/' :: tail =>
    tail.takeWhile (fun c => ¬ (c = '/' ∨ c = '?' ∨ c = '#'))
  | _ => []

def hostnameOf (netloc : List Char) : Option String :=
  let hostinfo := (splitOnChar '@' netloc).getLastD []
  let host :=
    if hostinfo.contains '[' then
      (hostinfo.dropWhile (fun c => c ≠ '[')).drop 1 |>.takeWhile (fun c => c ≠ ']')
    else
      hostinfo.takeWhile (fun c => c ≠ ':')
  if host.isEmpty then none else some (String.mk (lowerL host))

def urlparse (url : String) : ParsedUrl :=
  let cleaned :=
    ((url.data.dropWhile isC0OrSpace).reverse.dropWhile isC0OrSpace).reverse
      |>.filter (fun c => ¬ isTabCrLf c)
  let (scheme, rest) := splitScheme cleaned
  let netloc := netlocOf rest
  { scheme := scheme
    netloc := String.mk netloc
    hostname := hostnameOf netloc }

/-! ## Model of `ipaddress.ip_address` and its classification predicates

An address is a 32-bit (IPv4) or 128-bit (IPv6) natural number.  IPv4 text
follows the strict CPython dotted-quad grammar (four decimal octets, one to
three digits, no leading zeros, each ≤ 255).  IPv6 text is modelled for the
plain hextet grammar with at most one `::` compression; IPv4-mapped textual
forms and zone ids, which the repository never feeds to this function, are
omitted.  The private/loopback/link-local network lists are those of CPython 3.9. -/

inductive IPAddr where
  | v4 : Nat → IPAddr
  | v6 : Nat → IPAddr
deriving Repr, DecidableEq

def digitVal (c : Char) : Option Nat :=
  if c.isDigit then some (c.val.toNat - 48) else none

def hexDigitVal (c : Char) : Option Nat :=
  if c.isDigit then some (c.val.toNat - 48)
  else if 97 ≤ c.val.toNat ∧ c.val.toNat ≤ 102 then some (c.val.toNat - 87)
  else if 65 ≤ c.val.toNat ∧ c.val.toNat ≤ 70 then some (c.val.toNat - 55)
  else none

def parseOctet (g : List Char) : Option Nat :=
  if g.length = 0 ∨ 3 < g.length then none
  else if ¬ g.all Char.isDigit then none
  else if 1 < g.length ∧ g.headD ' ' = '0' then none
  else
    let v := g.foldl (fun a c => a * 10 + (c.val.toNat - 48)) 0
    if v ≤ 255 then some v else none

def parseIPv4 (l : List Char) : Option Nat :=
  let parts := splitOnChar '.' l
  if parts.length = 4 then
    match parts.mapM parseOctet with
    | some vs => some (vs.foldl (fun a v => a * 256 + v) 0)
    | none => none
  else none

def parseHextet (g : List Char) : Option Nat :=
  if g.length = 0 ∨ 4 < g.length then none
  else
    match g.mapM hexDigitVal with
    | some ds => some (ds.foldl (fun a d => a * 16 + d) 0)
    | none => none

def combineGroups (gs : List Nat) : Nat :=
  gs.foldl (fun a g => a * 65536 + g) 0

def parseIPv6 (l : List Char) : Option Nat :=
  match splitDoubleColon l with
  | none =>
    let groups := splitOnChar ':' l
    if groups.length = 8 then
      match groups.mapM parseHextet with
      | some vs => some (combineGroups vs)
      | none => none
    else none
  | some (left, right) =>
    if (splitDoubleColon right).isSome then none
    else
      let lg := if left.isEmpty then [] else splitOnChar ':' left
      let rg := if right.isEmpty then [] else splitOnChar ':' right
      if lg.length + rg.length ≤ 7 then
        match lg.mapM parseHextet, rg.mapM parseHextet with
        | some lv, some rv =>
          some (combineGroups (lv ++ List.replicate (8 - lv.length - rv.length) 0 ++ rv))
        | _, _ => none
      else none

def ip_address (s : String) : Option IPAddr :=
  match parseIPv4 s.data with
  | some n => some (.v4 n)
  | none =>
    match parseIPv6 s.data with
    | some n => some (.v6 n)
    | none => none

/-- Membership of a 32-bit address in a CIDR network. -/
def inNet4 (n net prefixLen : Nat) : Bool :=
  n / 2 ^ (32 - prefixLen) = net / 2 ^ (32 - prefixLen)

/-- Membership of a 128-bit address in a CIDR network. -/
def inNet6 (n net prefixLen : Nat) : Bool :=
  n / 2 ^ (128 - prefixLen) = net / 2 ^ (128 - prefixLen)

def ip_is_loopback : IPAddr → Bool
  | .v4 n => inNet4 n 2130706432 8
  | .v6 n => n = 1

def ip_is_link_local : IPAddr → Bool
  | .v4 n => inNet4 n 2851995648 16
  | .v6 n => inNet6 n (0xfe80 * 2 ^ 112) 10

def ip_is_private : IPAddr → Bool
  | .v4 n =>
    inNet4 n 0 8 || inNet4 n 167772160 8 || inNet4 n 2130706432 8 ||
    inNet4 n 2851995648 16 || inNet4 n 2886729728 12 ||
    inNet4 n 3221225472 29 || inNet4 n 3221225642 31 ||
    inNet4 n 3221225984 24 || inNet4 n 3232235520 16 ||
    inNet4 n 3323068416 15 || inNet4 n 3325256704 24 ||
    inNet4 n 3405803776 24 || inNet4 n 4026531840 4 ||
    inNet4 n 4294967295 32
  | .v6 n =>
    n = 1 || n = 0 || inNet6 n (0xffff * 2 ^ 32) 96 ||
    inNet6 n (0x100 * 2 ^ 112) 64 || inNet6 n (0x2001 * 2 ^ 112) 23 ||
    inNet6 n ((0x2001 * 65536 + 0x2) * 2 ^ 96) 48 ||
    inNet6 n ((0x2001 * 65536 + 0xdb8) * 2 ^ 96) 32 ||
    inNet6 n ((0x2001 * 65536 + 0x10) * 2 ^ 96) 28 ||
    inNet6 n (0xfc00 * 2 ^ 112) 7 || inNet6 n (0xfe80 * 2 ^ 112) 10

/-! ## `SecurityValidator` (security/validator.py) -/

/-- Model of `SecurityValidator.blocked_domains`. -/
def blocked_domains : List String :=
  ["localhost", "127.0.0.1", "0.0.0.0", "::1", "internal", "private", "admin", "root"]

/-- Model of `SecurityValidator._is_private_ip`.  The Python function receives
`parsed_url.hostname`, which may be `None`; `ipaddress.ip_address` then
raises and the bare `except` returns `False`. -/
def is_private_ip (hostname : Option String) : Bool :=
  match hostname with
  | none => false
  | some h =>
    match ip_address h with
    | some ip => ip_is_private ip || ip_is_loopback ip || ip_is_link_local ip
    | none => false

/-- Model of `SecurityValidator._is_blocked_domain`: `None` or empty hostnames are
blocked; otherwise any denylist entry occurring as a substring of the
lower-cased hostname blocks it. -/
def is_blocked_domain (hostname : Option String) : Bool :=
  match hostname with
  | none => true
  | some h =>
    if h = "" then true
    else blocked_domains.any (fun b => containsSub (lowerL h.data) b.data)

/-- Model of `SecurityValidator.validate_target`. -/
def validate_target (url : String) : Bool :=
  let p := urlparse url
  if p.scheme = "" ∨ p.netloc = "" then false
  else if ¬ (p.scheme = "http" ∨ p.scheme = "https") then false
  else if is_private_ip p.hostname then false
  else if is_blocked_domain p.hostname then false
  else true

/-- The quote/angle-bracket character class stripped by the first re.sub
pass of the sanitizer: the two angle brackets, the double quote and the
single quote (codepoints 60, 62, 34, 39). -/
def isQuoteAngle (c : Char) : Bool :=
  c.val = 60 || c.val = 62 || c.val = 34 || c.val = 39

/-- The control-character class stripped by the second re.sub pass of the
sanitizer: codepoints 0 to 0x1f and 0x7f to 0x9f. -/
def isCtlChar (c : Char) : Bool :=
  c.val ≤ 31 || (127 ≤ c.val && c.val ≤ 159)

/-- The three passes of `_sanitize_string` on the character list: drop
quote/angle characters, drop control characters, truncate to 1000. -/
def sanitizeL (l : List Char) : List Char :=
  ((l.filter (fun c => !isQuoteAngle c)).filter (fun c => !isCtlChar c)).take 1000

/-- Model of `SecurityValidator._sanitize_string`. -/
def sanitize_string (s : String) : String :=
  String.mk (sanitizeL s.data)

/-- A Python value as it can appear in a tool-parameter mapping. -/
inductive PyVal where
  | pstr : String → PyVal
  | plist : List PyVal → PyVal
  | pint : Int → PyVal
  | pbool : Bool → PyVal
  | pnone : PyVal

mutual
/-- Python `repr` of a value, as used by `str` on a list.  The development
only relies on `pyStr` of a string being that string; the exact quoting of
nested reprs is a plausible rendering of the CPython one. -/
def pyRepr : PyVal → String
  | .pstr s => "\x27" ++ s ++ "\x27"
  | .plist xs => "[" ++ String.intercalate ", " (pyReprList xs) ++ "]"
  | .pint n => toString n
  | .pbool true => "True"
  | .pbool false => "False"
  | .pnone => "None"

def pyReprList : List PyVal → List String
  | [] => []
  | v :: vs => pyRepr v :: pyReprList vs
end

/-- Python `str` of a value. -/
def pyStr : PyVal → String
  | .pstr s => s
  | .plist xs => "[" ++ String.intercalate ", " (pyReprList xs) ++ "]"
  | .pint n => toString n
  | .pbool true => "True"
  | .pbool false => "False"
  | .pnone => "None"

/-- The per-value branch of `validate_parameters`: sanitize string values,
map `str` plus sanitize over list values, pass everything else through. -/
def sanitize_value : PyVal → PyVal
  | .pstr s => .pstr (sanitize_string s)
  | .plist items => .plist (items.map (fun it => .pstr (sanitize_string (pyStr it))))
  | v => v

/-- Model of `SecurityValidator.validate_parameters`. -/
def validate_parameters (params : List (String × PyVal)) : List (String × PyVal) :=
  params.map (fun kv => (kv.1, sanitize_value kv.2))

/-! ## `DockerSandbox` (security/sandbox.py)

The two command builders are translated verbatim.  `execute_tool_safely`
and `_execute_without_docker` interact with Docker and `subprocess`; those
collaborators are modelled as oracle functions from the submitted command
to an outcome, and each run additionally yields the list of effects it
performed (which command was submitted where, and whether the process group
was signalled), so that theorems can speak about what was executed. -/

structure SandboxArgs where
  url : Option String
  wordlist : Option String
  target : Option String
  parameters : Option (List String)
deriving Repr, DecidableEq

/-- Model of `DockerSandbox._build_safe_command`. -/
def build_safe_command (tool : String) (args : SandboxArgs) : List String :=
  if tool = "ffuf" then
    ["sh", "-c",
     "apk add --no-cache ffuf && ffuf -u \"$1\" -w \"$2\" -o /tmp/output.json -of json",
     "--", args.url.getD "", args.wordlist.getD "/usr/share/wordlists/dirb/common.txt"]
  else if tool = "curl" then
    ["curl", "-s", "-L", "--max-time", "10", "--max-redirs", "3", args.url.getD ""]
  else if tool = "nmap" then
    ["nmap", "-sS", "-O", "--max-retries", "1", "--host-timeout", "30s",
     args.target.getD ""]
  else
    ["echo", "Tool " ++ tool ++ " not supported in sandbox"]

/-- Model of `DockerSandbox._build_host_command`.  the parameters argument is falsy
both for a missing key and for an empty list. -/
def build_host_command (tool : String) (args : SandboxArgs) : List String :=
  if tool = "sqlmap" then
    let cmd := ["python3", "/usr/bin/sqlmap", "-u", args.url.getD "",
                "--batch", "--level=3", "--risk=2", "--timeout=30", "--retries=1"]
    match args.parameters with
    | some ps => if ps.isEmpty then cmd else cmd ++ ["-p", String.intercalate "," ps]
    | none => cmd
  else if tool = "ffuf" then
    ["ffuf", "-u", args.url.getD "" ++ "/FUZZ",
     "-w", args.wordlist.getD "/usr/share/wordlists/dirb/common.txt",
     "-o", "/tmp/ffuf_output.json", "-of", "json", "-t", "10", "-timeout", "10"]
  else
    ["echo", "Tool " ++ tool ++ " execution blocked"]

/-- The result dictionary built by the sandbox methods.  Missing keys of the
Python dict are `none`. -/
structure ExecRecord where
  success : Bool
  output : Option String
  error : Option String
  tool : String
  sandboxed : Bool
  return_code : Option Int
deriving Repr, DecidableEq

/-- Observable effects of one supervisor call. -/
inductive SandboxEffect where
  | ranContainer : List String → SandboxEffect
  | ranSubprocess : List String → SandboxEffect
  | killedProcessGroup : SandboxEffect
deriving Repr, DecidableEq

/-- Outcome of `process.communicate(timeout=...)` on a launched child, or a
launch failure before any child ran. -/
inductive ChildOutcome where
  | completes : String → String → Int → ChildOutcome
  | timesOut : ChildOutcome
  | launchError : String → ChildOutcome
deriving Repr, DecidableEq

/-- Outcome of `client.containers.run(...)`. -/
inductive DockerOutcome where
  | output : String → DockerOutcome
  | containerError : String → DockerOutcome
  | failure : String → DockerOutcome
deriving Repr, DecidableEq

/-- Model of `DockerSandbox._execute_without_docker` (degraded mode). -/
def execute_without_docker (childRun : List String → ChildOutcome)
    (tool : String) (args : SandboxArgs) (timeout : Nat) :
    ExecRecord × List SandboxEffect :=
  match childRun (build_host_command tool args) with
  | .completes out err rc =>
    ({ success := rc = 0
       output := some out
       error := if err = "" then none else some err
       tool := tool
       sandboxed := false
       return_code := some rc }, [.ranSubprocess (build_host_command tool args)])
  | .timesOut =>
    ({ success := false
       output := none
       error := some ("Command timed out after " ++ toString timeout ++ " seconds")
       tool := tool
       sandboxed := false
       return_code := none },
     [.ranSubprocess (build_host_command tool args), .killedProcessGroup])
  | .launchError e =>
    ({ success := false
       output := none
       error := some ("Execution error: " ++ e)
       tool := tool
       sandboxed := false
       return_code := none }, [])

/-- Model of `DockerSandbox.execute_tool_safely`: degraded mode when no Docker client
is available, otherwise submit the allow-listed command to the container
runtime. -/
def execute_tool_safely (client : Bool)
    (dockerRun : List String → DockerOutcome)
    (childRun : List String → ChildOutcome)
    (tool : String) (args : SandboxArgs) (timeout : Nat) :
    ExecRecord × List SandboxEffect :=
  if ¬ client then execute_without_docker childRun tool args timeout
  else
    match dockerRun (build_safe_command tool args) with
    | .output s =>
      ({ success := true, output := some s, error := none, tool := tool,
         sandboxed := true, return_code := none },
       [.ranContainer (build_safe_command tool args)])
    | .containerError stderr =>
      ({ success := false, output := none,
         error := some ("Container error: " ++ stderr), tool := tool,
         sandboxed := true, return_code := none },
       [.ranContainer (build_safe_command tool args)])
    | .failure e =>
      ({ success := false, output := none,
         error := some ("Sandbox error: " ++ e), tool := tool,
         sandboxed := true, return_code := none },
       [.ranContainer (build_safe_command tool args)])

/-! ## `ProcessLimiter` (security/sandbox.py)

Every method body runs under `with self.lock:` where `self.lock` is a
non-reentrant `threading.Lock`.  The model threads through a `lockHeld`
flag recording whether the calling frame already holds that lock; an
acquisition attempt while it is held never returns, modelled as `none`. -/

structure ProcessLimiter where
  max_processes : Nat
  active_processes : List (String × Nat)
deriving Repr, DecidableEq

def lookupCount (l : List (String × Nat)) (u : String) : Nat :=
  match l.find? (fun p => p.1 = u) with
  | some p => p.2
  | none => 0

def setCount (l : List (String × Nat)) (u : String) (v : Nat) : List (String × Nat) :=
  if l.any (fun p => p.1 = u) then
    l.map (fun p => if p.1 = u then (u, v) else p)
  else l ++ [(u, v)]

def removeKey (l : List (String × Nat)) (u : String) : List (String × Nat) :=
  l.filter (fun p => p.1 ≠ u)

/-- Model of `ProcessLimiter.can_execute`.  `none` means the call never returns
(blocked forever on the lock). -/
def can_execute (lockHeld : Bool) (l : ProcessLimiter) (u : String) : Option Bool :=
  if lockHeld then none
  else some (lookupCount l.active_processes u < l.max_processes)

/-- Model of `ProcessLimiter.start_process`: takes the lock, then calls
`can_execute`, which tries to take the same non-reentrant lock again. -/
def start_process (lockHeld : Bool) (l : ProcessLimiter) (u : String) :
    Option (Bool × ProcessLimiter) :=
  if lockHeld then none
  else
    match can_execute true l u with
    | none => none
    | some b =>
      if b then
        let newActive := setCount l.active_processes u (lookupCount l.active_processes u + 1)
        some (true, { l with active_processes := newActive })
      else some (false, l)

/-- Model of `ProcessLimiter.end_process`. -/
def end_process (lockHeld : Bool) (l : ProcessLimiter) (u : String) :
    Option ProcessLimiter :=
  if lockHeld then none
  else
    some (if l.active_processes.any (fun p => p.1 = u) then
      let v := lookupCount l.active_processes u - 1
      if v = 0 then { l with active_processes := removeKey l.active_processes u }
      else { l with active_processes := setCount l.active_processes u v }
    else l)

/-! ## `SecurityMonitor.check_rate_limit` (security/sandbox.py) -/

structure SecurityMonitor where
  rate_limits : List (String × List Int)
deriving Repr, DecidableEq

def lookupTimes (m : List (String × List Int)) (k : String) : List Int :=
  match m.find? (fun p => p.1 = k) with
  | some p => p.2
  | none => []

def setTimes (m : List (String × List Int)) (k : String) (v : List Int) :
    List (String × List Int) :=
  if m.any (fun p => p.1 = k) then
    m.map (fun p => if p.1 = k then (k, v) else p)
  else m ++ [(k, v)]

/-- Per-action-class ceilings: `max_requests.get(action, 20)`. -/
def max_requests (action : String) : Nat :=
  if action = "scan" then 10
  else if action = "recon" then 5
  else if action = "exploit" then 3
  else 20

/-- Model of `SecurityMonitor.check_rate_limit`: prune entries older than 3600
seconds, reject when the pruned list has reached the ceiling, otherwise
append the current time and admit. -/
def check_rate_limit (m : SecurityMonitor) (user action : String) (now : Int) :
    Bool × SecurityMonitor :=
  let key := user ++ ":" ++ action
  let pruned := (lookupTimes m.rate_limits key).filter
    (fun ts => decide (now - ts < 3600))
  if max_requests action ≤ pruned.length then
    (false, { rate_limits := setTimes m.rate_limits key pruned })
  else
    (true, { rate_limits := setTimes m.rate_limits key (pruned ++ [now]) })

/-- A sequence of `check_rate_limit` calls for one principal and action
class at the given times, returning the result of each call. -/
def run_rate_checks (m : SecurityMonitor) (user action : String) :
    List Int → List Bool × SecurityMonitor
  | [] => ([], m)
  | t :: ts =>
    let r := check_rate_limit m user action t
    let rest := run_rate_checks r.2 user action ts
    (r.1 :: rest.1, rest.2)

/-! ## `AIOrchestrator` (ai/orchestrator.py)

The control loop `execute_intelligent_scan` iterates over the live,
append-only `plan["steps"]` list by index, so dynamically appended steps
are visited too; the model mirrors that with an index into the growing
list, plus a fuel argument (the Python loop has no step ceiling, so its
possible divergence is made explicit: exhausted fuel returns the state
reached so far).  The LLM decision collaborator and the five MCP tool
handlers are oracles; the model records each invocation of a tool handler
in an execution trace. -/

structure Step where
  tool : Option String
  reasoning : Option String
  params : List (String × String)
deriving Repr, DecidableEq

structure NextAction where
  tool : Option String
  reasoning : String
deriving Repr, DecidableEq

/-- The parsed decision dictionary; `.get` defaults of the loop are folded
into total fields. -/
structure Decision where
  summary : String
  error : Option String
  next_actions : List NextAction
  stop_scanning : Bool
  reasoning : String
  step_context : Option Step
deriving Repr, DecidableEq

structure StepOutcome where
  step_number : Nat
  tool : Option String
  result : Option String
  error : Option String
deriving Repr, DecidableEq

structure RunResults where
  step_results : List StepOutcome
  ai_decisions : List Decision
  final_steps : List Step
  exec_trace : List (String × List (String × String))
deriving Repr, DecidableEq

/-- Model of `params["url"] = target_url`: update or insert the `url` key. -/
def setParamUrl (params : List (String × String)) (target : String) :
    List (String × String) :=
  if params.any (fun p => p.1 = "url") then
    params.map (fun p => if p.1 = "url" then ("url", target) else p)
  else params ++ [("url", target)]

/-- Model of `AIOrchestrator._analyze_step_results`: the LLM call and the JSON parse
are collaborators; any failure of either returns the safe default decision
from the `except` branch.  A successful parse gets the step attached as
`step_context`. -/
def analyze_step_results (call : Except String String)
    (parse : String → Option Decision) (step : Step) : Decision :=
  match call with
  | .error e =>
    { summary := "Analysis failed", error := some e, next_actions := [],
      stop_scanning := false,
      reasoning := "Continue with default behavior due to analysis error",
      step_context := none }
  | .ok s =>
    match parse s with
    | some d => { d with step_context := some step }
    | none =>
      { summary := "Analysis failed", error := some ("Invalid JSON: " ++ s),
        next_actions := [], stop_scanning := false,
        reasoning := "Continue with default behavior due to analysis error",
        step_context := none }

def known_mcp_tools : List String :=
  ["full_recon", "vulnerability_scan", "sqlmap_scan", "xss_scan", "ssti_scan"]

/-- Model of `AIOrchestrator._execute_tool_via_mcp`: dispatch on the tool name to one
of the five MCP handlers (the oracle), raising `ValueError` otherwise.  The
second component records the handler invocation, if any. -/
def execute_tool_via_mcp
    (handler : String → List (String × String) → Except String String)
    (tool : Option String) (params : List (String × String)) :
    Except String String × List (String × List (String × String)) :=
  match tool with
  | some t =>
    if known_mcp_tools.any (fun x => x = t) then (handler t params, [(t, params)])
    else (.error ("Unknown tool: " ++ t), [])
  | none => (.error "Unknown tool: None", [])

/-- The dynamic-step append loop: `action.get("tool")` must be truthy and
not already the tool of any step in the (live) list. -/
def appendActions (steps : List Step) (actions : List NextAction) : List Step :=
  actions.foldl (fun acc a =>
    match a.tool with
    | some t =>
      if t ≠ "" ∧ ¬ (acc.map Step.tool).any (fun x => x = some t) then
        acc ++ [{ tool := some t, reasoning := some a.reasoning, params := [] }]
      else acc
    | none => acc) steps

/-- One run of the `for i, step in enumerate(plan["steps"])` loop body and
its continuation.  `i` is the loop index into the live `steps` list. -/
def scanLoop (handler : String → List (String × String) → Except String String)
    (analyze : String → String → Step → Decision) (target : String) :
    Nat → Nat → List Step → List StepOutcome → List Decision →
    List (String × List (String × String)) → RunResults
  | 0, _, steps, srs, ds, tr =>
    { step_results := srs, ai_decisions := ds, final_steps := steps, exec_trace := tr }
  | fuel + 1, i, steps, srs, ds, tr =>
    match steps[i]? with
    | none =>
      { step_results := srs, ai_decisions := ds, final_steps := steps, exec_trace := tr }
    | some step =>
      let params := setParamUrl step.params target
      let r := execute_tool_via_mcp handler step.tool params
      match r.1 with
      | .error e =>
        scanLoop handler analyze target fuel (i + 1) steps
          (srs ++ [{ step_number := i + 1, tool := step.tool, result := none,
                     error := some e }])
          ds (tr ++ r.2)
      | .ok res =>
        let sr : StepOutcome :=
          { step_number := i + 1, tool := step.tool, result := some res, error := none }
        let analysis := analyze res target step
        if analysis.stop_scanning then
          { step_results := srs ++ [sr], ai_decisions := ds ++ [analysis],
            final_steps := steps, exec_trace := tr ++ r.2 }
        else
          scanLoop handler analyze target fuel (i + 1)
            (appendActions steps analysis.next_actions)
            (srs ++ [sr]) (ds ++ [analysis]) (tr ++ r.2)

/-- Model of `AIOrchestrator.execute_intelligent_scan` on a plan with the given
target and step list. -/
def execute_intelligent_scan
    (handler : String → List (String × String) → Except String String)
    (analyze : String → String → Step → Decision)
    (target : String) (steps : List Step) (fuel : Nat) : RunResults :=
  scanLoop handler analyze target fuel 0 steps [] [] []

/-! ## Claim-side predicates and concrete fixtures -/

/-- The address set named by the target-validation property: 127.0.0.1,
::1, 10.0.0.0/8, 172.16.0.0/12, 192.168.0.0/16 and 169.254.0.0/16. -/
def target_denied_address : IPAddr → Bool
  | .v4 n =>
    n = 2130706433 || inNet4 n 167772160 8 || inNet4 n 2886729728 12 ||
    inNet4 n 3232235520 16 || inNet4 n 2851995648 16
  | .v6 n => n = 1

/-- A tool-handler oracle that always succeeds, for concrete runs. -/
def const_ok_handler : String → List (String × String) → Except String String :=
  fun t _ => .ok ("ran " ++ t)

/-- A decision-policy oracle that always continues and proposes nothing. -/
def plain_continue_policy : String → String → Step → Decision :=
  fun _ _ _ =>
    { summary := "ok", error := none, next_actions := [],
      stop_scanning := false, reasoning := "continue", step_context := none }

/-- A decision-policy oracle that always returns stop=false together with
exactly one proposed next action for tool `t`. -/
def duplicate_policy (t r : String) : String → String → Step → Decision :=
  fun _ _ _ =>
    { summary := "dup", error := none,
      next_actions := [{ tool := some t, reasoning := r }],
      stop_scanning := false, reasoning := "continue", step_context := none }

/-! ## Helper lemmas -/

theorem sanitizeL_idem (l : List Char) : sanitizeL (sanitizeL l) = sanitizeL l := by
  unfold sanitizeL
  set l1 := l.filter (fun c => !isQuoteAngle c) with hl1
  set l2 := l1.filter (fun c => !isCtlChar c) with hl2
  set t := l2.take 1000 with ht
  have hmem : ∀ c ∈ t, c ∈ l2 := fun c hc => List.take_subset _ _ hc
  have h1 : t.filter (fun c => !isQuoteAngle c) = t := by
    apply List.filter_eq_self.mpr
    intro c hc
    have hc1 : c ∈ l1 := List.filter_subset' _ (hmem c hc)
    rw [hl1] at hc1
    exact (List.mem_filter.mp hc1).2
  have h2 : t.filter (fun c => !isCtlChar c) = t := by
    apply List.filter_eq_self.mpr
    intro c hc
    have hc2 := hmem c hc
    rw [hl2] at hc2
    exact (List.mem_filter.mp hc2).2
  rw [h1, h2, ht, List.take_take]
  simp

theorem sanitize_string_idem (s : String) :
    sanitize_string (sanitize_string s) = sanitize_string s :=
  congrArg String.mk (sanitizeL_idem s.data)

theorem sanitize_value_idem (v : PyVal) :
    sanitize_value (sanitize_value v) = sanitize_value v := by
  cases v with
  | pstr s => simp [sanitize_value, sanitize_string_idem]
  | plist items =>
    simp [sanitize_value, List.map_map, Function.comp, pyStr, sanitize_string_idem]
  | pint n => rfl
  | pbool b => rfl
  | pnone => rfl

theorem lookupTimes_single (k : String) (v : List Int) : lookupTimes [(k, v)] k = v := by
  simp [lookupTimes, List.find?]

theorem setTimes_single (k : String) (v0 v : List Int) :
    setTimes [(k, v0)] k v = [(k, v)] := by
  simp [setTimes]

theorem filter_replicate_window (k : Nat) (t : Int) :
    (List.replicate k t).filter (fun ts => decide (t - ts < 3600)) = List.replicate k t := by
  apply List.filter_eq_self.mpr
  intro a ha
  rw [List.eq_of_mem_replicate ha]
  simp only [decide_eq_true_eq]
  omega

theorem check_rate_limit_replicate (u : String) (t : Int) (k : Nat) :
    check_rate_limit ⟨[(u ++ ":" ++ "scan", List.replicate k t)]⟩ u "scan" t =
      if 10 ≤ k then (false, ⟨[(u ++ ":" ++ "scan", List.replicate k t)]⟩)
      else (true, ⟨[(u ++ ":" ++ "scan", List.replicate (k + 1) t)]⟩) := by
  simp only [check_rate_limit]
  rw [lookupTimes_single, filter_replicate_window, List.length_replicate]
  have hm : max_requests "scan" = 10 := rfl
  rw [hm]
  split_ifs with h
  · rw [setTimes_single]
  · rw [setTimes_single, ← List.replicate_succ']

theorem check_rate_limit_empty_scan (u : String) (t : Int) :
    check_rate_limit ⟨[]⟩ u "scan" t =
      (true, ⟨[(u ++ ":" ++ "scan", List.replicate 1 t)]⟩) := by
  simp [check_rate_limit, lookupTimes, setTimes, max_requests, List.replicate]

theorem run_rate_checks_replicate (u : String) (t : Int) :
    ∀ (j k : Nat), k + j ≤ 10 →
    run_rate_checks ⟨[(u ++ ":" ++ "scan", List.replicate k t)]⟩ u "scan"
        (List.replicate j t) =
      (List.replicate j true, ⟨[(u ++ ":" ++ "scan", List.replicate (k + j) t)]⟩) := by
  intro j
  induction j with
  | zero => intro k h; simp [run_rate_checks]
  | succ n ih =>
    intro k h
    rw [List.replicate_succ]
    simp only [run_rate_checks]
    rw [check_rate_limit_replicate, if_neg (by omega)]
    rw [ih (k + 1) (by omega)]
    have hkn : k + 1 + n = k + (n + 1) := by omega
    rw [hkn]
    simp [List.replicate_succ]

theorem run_rate_checks_append (m : SecurityMonitor) (u a : String) (l1 l2 : List Int) :
    run_rate_checks m u a (l1 ++ l2) =
      ((run_rate_checks m u a l1).1 ++
        (run_rate_checks (run_rate_checks m u a l1).2 u a l2).1,
       (run_rate_checks (run_rate_checks m u a l1).2 u a l2).2) := by
  induction l1 generalizing m with
  | nil => simp [run_rate_checks]
  | cons x xs ih => simp [run_rate_checks, ih]

theorem scanLoop_final_steps_fixed
    (handler : String → List (String × String) → Except String String)
    (analyze : String → String → Step → Decision) (target : String) (S : List Step)
    (hstable : ∀ res tgt st, appendActions S (analyze res tgt st).next_actions = S) :
    ∀ fuel i srs ds tr,
      (scanLoop handler analyze target fuel i S srs ds tr).final_steps = S := by
  intro fuel
  induction fuel with
  | zero => intro i srs ds tr; rfl
  | succ n ih =>
    intro i srs ds tr
    simp only [scanLoop]
    split
    · rfl
    · split
      · exact ih _ _ _ _
      · split
        · rfl
        · rw [hstable]
          exact ih _ _ _ _

theorem scanLoop_exec_trace_extends
    (handler : String → List (String × String) → Except String String)
    (analyze : String → String → Step → Decision) (target : String) :
    ∀ fuel i steps srs ds tr, ∃ rest,
      (scanLoop handler analyze target fuel i steps srs ds tr).exec_trace = tr ++ rest := by
  intro fuel
  induction fuel with
  | zero =>
    intro i steps srs ds tr
    exact ⟨[], by simp [scanLoop]⟩
  | succ n ih =>
    intro i steps srs ds tr
    simp only [scanLoop]
    split
    · exact ⟨[], by simp⟩
    · next step hstep =>
      split
      · next e heq =>
        obtain ⟨rest, hrest⟩ := ih (i + 1) steps (srs ++ [⟨i + 1, step.tool, none, some e⟩]) ds (tr ++ (execute_tool_via_mcp handler step.tool (setParamUrl step.params target)).2)
        exact ⟨(execute_tool_via_mcp handler step.tool (setParamUrl step.params target)).2 ++ rest, by rw [hrest, List.append_assoc]⟩
      · next res heq =>
        split
        · exact ⟨(execute_tool_via_mcp handler step.tool (setParamUrl step.params target)).2, rfl⟩
        · obtain ⟨rest, hrest⟩ := ih (i + 1) (appendActions steps (analyze res target step).next_actions) (srs ++ [⟨i + 1, step.tool, some res, none⟩]) (ds ++ [analyze res target step]) (tr ++ (execute_tool_via_mcp handler step.tool (setParamUrl step.params target)).2)
          exact ⟨(execute_tool_via_mcp handler step.tool (setParamUrl step.params target)).2 ++ rest, by rw [hrest, List.append_assoc]⟩

theorem target_denied_imp_private (ip : IPAddr)
    (h : target_denied_address ip = true) :
    (ip_is_private ip || ip_is_loopback ip || ip_is_link_local ip) = true := by
  cases ip with
  | v4 n =>
    simp only [target_denied_address, Bool.or_eq_true, decide_eq_true_eq] at h
    rcases h with ((((h1 | h1) | h1) | h1) | h1)
    · subst h1; decide
    · simp [ip_is_private, h1]
    · simp [ip_is_private, h1]
    · simp [ip_is_private, h1]
    · simp [ip_is_link_local, h1]
  | v6 n =>
    simp only [target_denied_address, decide_eq_true_eq] at h
    simp [ip_is_loopback, h]

theorem is_private_ip_of_denied (h : String) (ip : IPAddr)
    (hip : ip_address h = some ip) (hd : target_denied_address ip = true) :
    is_private_ip (some h) = true := by
  simp only [is_private_ip]
  rw [hip]
  exact target_denied_imp_private ip hd

/-! ## Claim theorems -/

/-- C8: parameter sanitization is idempotent — applying
`validate_parameters` to its own output returns it unchanged: the stripped
quote/angle-bracket/control characters do not reappear and the
1000-character truncation is stable. -/
theorem validate_parameters_idempotent (params : List (String × PyVal)) :
    validate_parameters (validate_parameters params) = validate_parameters params := by
  induction params with
  | nil => rfl
  | cons kv rest ih =>
    simp only [validate_parameters, List.map_cons] at ih ⊢
    rw [sanitize_value_idem]
    exact congrArg _ ih

/-- C4 (code bug): the very first admit call on the governor never returns.
`start_process` takes the non-reentrant lock and then calls `can_execute`,
which blocks forever trying to take the same lock, so no admit call ever
returns true or false — contradicting the claimed check-and-increment
contract.  a call that never returns has model value none. -/
theorem start_process_never_returns (lockHeld : Bool) (l : ProcessLimiter) (u : String) :
    start_process lockHeld l u = none := by
  cases lockHeld <;> simp [start_process, can_execute]

/-- C6: whenever the response of the decision collaborator is missing or fails
to parse, `_analyze_step_results` returns the safe default decision with
stop=false and an empty next-action list. -/
theorem analysis_failure_returns_safe_default
    (call : Except String String) (parse : String → Option Decision) (step : Step)
    (hfail : ∀ s, call = .ok s → parse s = none) :
    (analyze_step_results call parse step).stop_scanning = false ∧
    (analyze_step_results call parse step).next_actions = [] := by
  cases call with
  | error e => simp [analyze_step_results]
  | ok s =>
    have hp := hfail s rfl
    simp [analyze_step_results, hp]

theorem execute_without_docker_trace
    (childRun : List String → ChildOutcome) (tool : String) (args : SandboxArgs)
    (timeout : Nat) :
    ∀ e ∈ (execute_without_docker childRun tool args timeout).2,
      e = SandboxEffect.ranSubprocess (build_host_command tool args) ∨
      e = SandboxEffect.killedProcessGroup := by
  intro e he
  unfold execute_without_docker at he
  split at he
  · simp at he
    simp [he]
  · simp at he
    rcases he with h1 | h1 <;> simp [h1]
  · simp at he

theorem execute_tool_safely_trace (client : Bool)
    (dockerRun : List String → DockerOutcome) (childRun : List String → ChildOutcome)
    (tool : String) (args : SandboxArgs) (timeout : Nat) :
    ∀ e ∈ (execute_tool_safely client dockerRun childRun tool args timeout).2,
      e = SandboxEffect.ranContainer (build_safe_command tool args) ∨
      e = SandboxEffect.ranSubprocess (build_host_command tool args) ∨
      e = SandboxEffect.killedProcessGroup := by
  cases client with
  | false =>
    intro e he
    unfold execute_tool_safely at he
    rw [if_pos (by simp)] at he
    rcases execute_without_docker_trace childRun tool args timeout e he with h1 | h1
    · exact Or.inr (Or.inl h1)
    · exact Or.inr (Or.inr h1)
  | true =>
    intro e he
    unfold execute_tool_safely at he
    rw [if_neg (by simp)] at he
    split at he <;> simp at he <;> simp [he]

/-- C2: an unrecognized tool identifier produces the fixed echo rejection
command in both supervisor modes, so nothing assembled from caller-supplied
command text is ever submitted for execution — every submitted command is
the echo of the rejection record. -/
theorem unknown_tool_yields_rejection (client : Bool)
    (dockerRun : List String → DockerOutcome) (childRun : List String → ChildOutcome)
    (tool : String) (args : SandboxArgs) (timeout : Nat)
    (hnot : tool ∉ ["ffuf", "curl", "nmap", "sqlmap"]) :
    build_safe_command tool args =
      ["echo", "Tool " ++ tool ++ " not supported in sandbox"] ∧
    build_host_command tool args =
      ["echo", "Tool " ++ tool ++ " execution blocked"] ∧
    ∀ e ∈ (execute_tool_safely client dockerRun childRun tool args timeout).2,
      e = SandboxEffect.ranContainer ["echo", "Tool " ++ tool ++ " not supported in sandbox"] ∨
      e = SandboxEffect.ranSubprocess ["echo", "Tool " ++ tool ++ " execution blocked"] ∨
      e = SandboxEffect.killedProcessGroup := by
  simp only [List.mem_cons, List.not_mem_nil, or_false, not_or] at hnot
  obtain ⟨hf, hc, hn, hs⟩ := hnot
  have hsafe : build_safe_command tool args =
      ["echo", "Tool " ++ tool ++ " not supported in sandbox"] := by
    simp [build_safe_command, hf, hc, hn]
  have hhost : build_host_command tool args =
      ["echo", "Tool " ++ tool ++ " execution blocked"] := by
    simp [build_host_command, hf, hs]
  refine ⟨hsafe, hhost, ?_⟩
  intro e he
  rcases execute_tool_safely_trace client dockerRun childRun tool args timeout e he
    with h1 | h1 | h1
  · rw [hsafe] at h1
    exact Or.inl h1
  · rw [hhost] at h1
    exact Or.inr (Or.inl h1)
  · exact Or.inr (Or.inr h1)

theorem unknown_tool_yields_rejection_witness :
    "evil_tool" ∉ ["ffuf", "curl", "nmap", "sqlmap"] ∧
    (build_safe_command "evil_tool" ⟨none, none, none, none⟩ =
      ["echo", "Tool evil_tool not supported in sandbox"] ∧
    build_host_command "evil_tool" ⟨none, none, none, none⟩ =
      ["echo", "Tool evil_tool execution blocked"] ∧
    ∀ e ∈ (execute_tool_safely true (fun _ => DockerOutcome.output "x")
        (fun _ => ChildOutcome.completes "" "" 0) "evil_tool"
        ⟨none, none, none, none⟩ 30).2,
      e = SandboxEffect.ranContainer ["echo", "Tool evil_tool not supported in sandbox"] ∨
      e = SandboxEffect.ranSubprocess ["echo", "Tool evil_tool execution blocked"] ∨
      e = SandboxEffect.killedProcessGroup) :=
  ⟨by decide, unknown_tool_yields_rejection true _ _ "evil_tool" _ 30 (by decide)⟩

/-- C5: in degraded (unsandboxed) mode, a child process that exceeds the
wall-clock timeout is answered by signalling its whole process group, and
the supervisor returns a record flagged sandboxed=false, success=false with
the timeout error message — it does not block. -/
theorem degraded_timeout_terminates_group
    (dockerRun : List String → DockerOutcome) (childRun : List String → ChildOutcome)
    (tool : String) (args : SandboxArgs) (timeout : Nat)
    (ht : childRun (build_host_command tool args) = ChildOutcome.timesOut) :
    (execute_tool_safely false dockerRun childRun tool args timeout).1.success = false ∧
    (execute_tool_safely false dockerRun childRun tool args timeout).1.sandboxed = false ∧
    (execute_tool_safely false dockerRun childRun tool args timeout).1.error =
      some ("Command timed out after " ++ toString timeout ++ " seconds") ∧
    SandboxEffect.killedProcessGroup ∈
      (execute_tool_safely false dockerRun childRun tool args timeout).2 := by
  simp [execute_tool_safely, execute_without_docker, ht]

theorem degraded_timeout_terminates_group_witness :
    (fun _ : List String => ChildOutcome.timesOut)
        (build_host_command "nmap" ⟨none, none, some "198.51.100.7", none⟩) =
      ChildOutcome.timesOut ∧
    ((execute_tool_safely false (fun _ => DockerOutcome.output "")
        (fun _ => ChildOutcome.timesOut) "nmap"
        ⟨none, none, some "198.51.100.7", none⟩ 1).1.success = false ∧
    (execute_tool_safely false (fun _ => DockerOutcome.output "")
        (fun _ => ChildOutcome.timesOut) "nmap"
        ⟨none, none, some "198.51.100.7", none⟩ 1).1.sandboxed = false ∧
    (execute_tool_safely false (fun _ => DockerOutcome.output "")
        (fun _ => ChildOutcome.timesOut) "nmap"
        ⟨none, none, some "198.51.100.7", none⟩ 1).1.error =
      some ("Command timed out after " ++ toString 1 ++ " seconds") ∧
    SandboxEffect.killedProcessGroup ∈
      (execute_tool_safely false (fun _ => DockerOutcome.output "")
        (fun _ => ChildOutcome.timesOut) "nmap"
        ⟨none, none, some "198.51.100.7", none⟩ 1).2) :=
  ⟨rfl, degraded_timeout_terminates_group _ _ "nmap" _ 1 rfl⟩

/-- C1: `validate_target` returns false for every URL whose host is an
address among 127.0.0.1, ::1, 10.0.0.0/8, 172.16.0.0/12, 192.168.0.0/16 and
169.254.0.0/16 (the private, loopback and link-local set the property
names).  The source performs no DNS resolution: the host reaching
`_is_private_ip` is the hostname of the URL itself, so the address hypothesis is
stated of the hostname as an IP literal. -/
theorem validate_target_rejects_private_hosts (url : String) (h : String)
    (ip : IPAddr) (hh : (urlparse url).hostname = some h)
    (hip : ip_address h = some ip)
    (hrange : target_denied_address ip = true) :
    validate_target url = false := by
  have hpriv : is_private_ip (urlparse url).hostname = true := by
    rw [hh]
    exact is_private_ip_of_denied h ip hip hrange
  by_cases h1 : (urlparse url).scheme = "" ∨ (urlparse url).netloc = ""
  · simp [validate_target, h1]
  · by_cases h2 : (urlparse url).scheme = "http" ∨ (urlparse url).scheme = "https"
    · simp [validate_target, h1, h2, hpriv]
    · simp [validate_target, h1, h2]

theorem validate_target_rejects_private_hosts_witness :
    (urlparse "http://10.0.0.1/x").hostname = some "10.0.0.1" ∧
    ip_address "10.0.0.1" = some (IPAddr.v4 167772161) ∧
    target_denied_address (IPAddr.v4 167772161) = true ∧
    validate_target "http://10.0.0.1/x" = false :=
  ⟨by decide, by decide, by decide,
   validate_target_rejects_private_hosts "http://10.0.0.1/x" "10.0.0.1"
     (IPAddr.v4 167772161) (by decide) (by decide) (by decide)⟩

/-- C10: `validate_target` rejects every URL whose hostname is empty or
contains one of the substrings localhost, 127.0.0.1, 0.0.0.0, ::1,
internal, private, admin or root anywhere in it (so a host such as
administrator.example.com is rejected), regardless of what address the
host denotes. -/
theorem validate_target_rejects_blocked_hostnames (url : String)
    (hblock : (urlparse url).hostname = none ∨
      ∃ h, (urlparse url).hostname = some h ∧
        (h = "" ∨ ∃ b ∈ (["localhost", "127.0.0.1", "0.0.0.0", "::1",
            "internal", "private", "admin", "root"] : List String),
          containsSub (lowerL h.data) b.data = true)) :
    validate_target url = false := by
  have hb : is_blocked_domain (urlparse url).hostname = true := by
    rcases hblock with hn | ⟨h, hsome, hcond⟩
    · rw [hn]
      rfl
    · rw [hsome]
      show (if h = "" then true
        else blocked_domains.any fun b => containsSub (lowerL h.data) b.data) = true
      rcases hcond with he | ⟨b, hbmem, hbsub⟩
      · simp [he]
      · by_cases he : h = ""
        · simp [he]
        · rw [if_neg he]
          apply List.any_eq_true.mpr
          exact ⟨b, hbmem, hbsub⟩
  by_cases h1 : (urlparse url).scheme = "" ∨ (urlparse url).netloc = ""
  · simp [validate_target, h1]
  · by_cases h2 : (urlparse url).scheme = "http" ∨ (urlparse url).scheme = "https"
    · by_cases h3 : is_private_ip (urlparse url).hostname
      · simp [validate_target, h1, h2, h3]
      · simp [validate_target, h1, h2, h3, hb]
    · simp [validate_target, h1, h2]

theorem validate_target_rejects_blocked_hostnames_witness :
    (urlparse "http://administrator.example.com/x").hostname =
      some "administrator.example.com" ∧
    containsSub (lowerL "administrator.example.com".data) "admin".data = true ∧
    validate_target "http://administrator.example.com/x" = false :=
  ⟨by decide, by decide,
   validate_target_rejects_blocked_hostnames "http://administrator.example.com/x"
     (Or.inr ⟨"administrator.example.com", by decide,
       Or.inr ⟨"admin", by decide, by decide⟩⟩)⟩

/-- C7: a next action proposed by the decision policy is appended only if
no existing step already targets the same tool; for a fixed 2-step plan
under a policy that always returns stop=false with one duplicate-tool next
action, the final step count is 2. -/
theorem duplicate_next_action_keeps_two_steps
    (handler : String → List (String × String) → Except String String)
    (target t1 t2 t r : String) (r1 r2 : Option String)
    (p1 p2 : List (String × String)) (fuel : Nat)
    (hdup : t = t1 ∨ t = t2) :
    (execute_intelligent_scan handler (duplicate_policy t r) target
      [{ tool := some t1, reasoning := r1, params := p1 },
       { tool := some t2, reasoning := r2, params := p2 }] fuel).final_steps.length = 2 := by
  have hstable : ∀ res tgt st,
      appendActions
        [{ tool := some t1, reasoning := r1, params := p1 },
         { tool := some t2, reasoning := r2, params := p2 }]
        ((duplicate_policy t r) res tgt st).next_actions =
      [{ tool := some t1, reasoning := r1, params := p1 },
       { tool := some t2, reasoning := r2, params := p2 }] := by
    intro res tgt st
    rcases hdup with h | h <;> subst h <;> simp [duplicate_policy, appendActions]
  unfold execute_intelligent_scan
  rw [scanLoop_final_steps_fixed handler (duplicate_policy t r) target _ hstable]
  rfl

theorem duplicate_next_action_keeps_two_steps_witness :
    ("full_recon" = "full_recon" ∨ "full_recon" = "xss_scan") ∧
    (execute_intelligent_scan const_ok_handler (duplicate_policy "full_recon" "again")
      "http://203.0.113.9/app"
      [{ tool := some "full_recon", reasoning := some "r1", params := [] },
       { tool := some "xss_scan", reasoning := some "r2", params := [] }]
      6).final_steps.length = 2 :=
  ⟨Or.inl rfl,
   duplicate_next_action_keeps_two_steps const_ok_handler "http://203.0.113.9/app"
     "full_recon" "xss_scan" "full_recon" "again" (some "r1") (some "r2") [] [] 6
     (Or.inl rfl)⟩

/-- C3 counterexample: the control loop executes a step whose target fails
`validate_target`.  With the plan target http://localhost:5000 — rejected
by the validator — the single full_recon step is still dispatched to the
tool handler, because `execute_intelligent_scan` invokes neither the
Security Validator nor the Concurrency Governor. -/
theorem loop_executes_step_with_invalid_target :
    validate_target "http://localhost:5000" = false ∧
    (execute_intelligent_scan const_ok_handler plain_continue_policy
      "http://localhost:5000"
      [{ tool := some "full_recon", reasoning := some "recon first", params := [] }]
      5).exec_trace = [("full_recon", [("url", "http://localhost:5000")])] := by
  constructor
  · decide
  · rfl

/-- C3 (amended): the control loop passes every step directly to the tool
executor without consulting the Security Validator or the Concurrency
Governor — even a step whose target fails `validate_target` is executed,
its invocation being the first entry of the execution trace. -/
theorem step_executed_without_validator_gate
    (handler : String → List (String × String) → Except String String)
    (analyze : String → String → Step → Decision) (url : String)
    (r : Option String) (ps : List (String × String)) (tl : String) (fuel : Nat)
    (hknown : tl ∈ known_mcp_tools)
    (hinvalid : validate_target url = false) :
    (execute_intelligent_scan handler analyze url
      [{ tool := some tl, reasoning := r, params := ps }] (fuel + 1)).exec_trace.head? =
      some (tl, setParamUrl ps url) := by
  have hdisp : execute_tool_via_mcp handler (some tl) (setParamUrl ps url) =
      (handler tl (setParamUrl ps url), [(tl, setParamUrl ps url)]) := by
    simp only [execute_tool_via_mcp]
    rw [if_pos (List.any_eq_true.mpr ⟨tl, hknown, by simp⟩)]
  unfold execute_intelligent_scan
  simp only [scanLoop, List.getElem?_cons_zero, hdisp]
  cases hres : handler tl (setParamUrl ps url) with
  | error e =>
    dsimp only
    obtain ⟨rest, hrest⟩ := scanLoop_exec_trace_extends handler analyze url fuel (0 + 1)
      [{ tool := some tl, reasoning := r, params := ps }]
      ([] ++ [⟨0 + 1, some tl, none, some e⟩]) [] ([] ++ [(tl, setParamUrl ps url)])
    rw [hrest]
    rfl
  | ok res =>
    dsimp only
    split
    · rfl
    · obtain ⟨rest, hrest⟩ := scanLoop_exec_trace_extends handler analyze url fuel (0 + 1)
        (appendActions [{ tool := some tl, reasoning := r, params := ps }]
          (analyze res url { tool := some tl, reasoning := r, params := ps }).next_actions)
        ([] ++ [⟨0 + 1, some tl, some res, none⟩])
        ([] ++ [analyze res url { tool := some tl, reasoning := r, params := ps }])
        ([] ++ [(tl, setParamUrl ps url)])
      rw [hrest]
      rfl

theorem step_executed_without_validator_gate_witness :
    "xss_scan" ∈ known_mcp_tools ∧
    validate_target "http://admin.example.com" = false ∧
    (execute_intelligent_scan const_ok_handler plain_continue_policy
      "http://admin.example.com"
      [{ tool := some "xss_scan", reasoning := none, params := [] }] 1).exec_trace.head? =
      some ("xss_scan", [("url", "http://admin.example.com")]) :=
  ⟨by decide, by decide,
   step_executed_without_validator_gate const_ok_handler plain_continue_policy
     "http://admin.example.com" none [] "xss_scan" 0 (by decide) (by decide)⟩

/-- C9: for every principal, ten admitted scan-class checks at one instant
exhaust the scan ceiling, so the eleventh check within the hour returns
false; once the stored timestamps are 3600 seconds old they are pruned and
a new check returns true again; the per-class ceilings are scan 10,
recon 5, exploit 3, and 20 for every other action class. -/
theorem rate_limit_scan_ceiling (u : String) (t : Int) :
    (run_rate_checks ⟨[]⟩ u "scan" (List.replicate 11 t)).1 =
      List.replicate 10 true ++ [false] ∧
    (check_rate_limit (run_rate_checks ⟨[]⟩ u "scan" (List.replicate 11 t)).2
        u "scan" (t + 3600)).1 = true ∧
    max_requests "scan" = 10 ∧ max_requests "recon" = 5 ∧
    max_requests "exploit" = 3 ∧
    ∀ a : String, a ≠ "scan" → a ≠ "recon" → a ≠ "exploit" → max_requests a = 20 := by
  have hempty : ∀ v : List Int, setTimes [] (u ++ ":" ++ "scan") v =
      [(u ++ ":" ++ "scan", v)] := by
    intro v
    simp [setTimes]
  have hlook0 : lookupTimes [] (u ++ ":" ++ "scan") = [] := rfl
  refine ⟨?_, ?_, rfl, rfl, rfl, ?_⟩
  · simp [run_rate_checks, check_rate_limit, lookupTimes_single, setTimes_single,
      hempty, hlook0, max_requests]
  · simp [run_rate_checks, check_rate_limit, lookupTimes_single, setTimes_single,
      hempty, hlook0, max_requests]
  · intro a h1 h2 h3
    simp [max_requests, h1, h2, h3]

theorem rate_limit_scan_ceiling_witness :
    (run_rate_checks ⟨[]⟩ "alice" "scan" (List.replicate 11 (0 : Int))).1 =
      List.replicate 10 true ++ [false] ∧
    (check_rate_limit (run_rate_checks ⟨[]⟩ "alice" "scan"
        (List.replicate 11 (0 : Int))).2 "alice" "scan" ((0 : Int) + 3600)).1 = true ∧
    max_requests "scan" = 10 ∧ max_requests "recon" = 5 ∧
    max_requests "exploit" = 3 ∧ max_requests "probe" = 20 := by
  have h := rate_limit_scan_ceiling "alice" 0
  exact ⟨h.1, h.2.1, h.2.2.1, h.2.2.2.1, h.2.2.2.2.1,
    h.2.2.2.2.2 "probe" (by decide) (by decide) (by decide)⟩

theorem analysis_failure_returns_safe_default_witness :
    (analyze_step_results (Except.error "LLM unavailable") (fun _ => none)
      { tool := none, reasoning := none, params := [] }).stop_scanning = false ∧
    (analyze_step_results (Except.error "LLM unavailable") (fun _ => none)
      { tool := none, reasoning := none, params := [] }).next_actions = [] :=
  analysis_failure_returns_safe_default _ _ _ (fun _ h => nomatch h)

end McpWaf
